import Mathlib

/-!
Verification development for the Problepo prediction server
(`server/index.js`, local-template snapshot, and the DeepSeek snapshot
`sb1-pjmvdfam/server/index.js`).

The JavaScript source is shallowly embedded here:
* timestamps (`Date.now()` values, milliseconds) are `Nat`;
* the `Math.random()` stream is an explicit parameter `rand : Nat → Rat`,
  each drawn value assumed in `[0, 1)` where a theorem needs it;
* the rate limiter's mutable `Map` of request counts is an association
  list `List (String × Nat)` with JS `Map.get(ip) || 0` / `Map.set`
  semantics;
* HTTP responses are inductive values recording the status and JSON body
  the handler sends;
* network I/O (AI completions, status probes) is abstracted by passing
  the response of each round trip as an explicit argument.
-/

/-- Outcome of the rate-limiting middleware `rateLimiter.check`:
either `next()` is called (the request proceeds) or a 429 JSON body
`{error, retryAfter}` is sent. -/
inductive CheckOutcome where
| next : CheckOutcome
| tooMany (error : String) (retryAfter : Nat) : CheckOutcome
deriving DecidableEq, Repr

/-- JS `Map.get(ip) || 0`: the count stored for `ip`, defaulting to 0. -/
def getCount : List (String × Nat) → String → Nat
| [], _ => 0
| (k, c) :: rest, ip => if k = ip then c else getCount rest ip

/-- JS `Map.set(ip, v)`: update the entry for `ip` in place, or append it. -/
def setCount : List (String × Nat) → String → Nat → List (String × Nat)
| [], ip, v => [(ip, v)]
| (k, c) :: rest, ip, v =>
    if k = ip then (ip, v) :: rest else (k, c) :: setCount rest ip v

/-- Mutable state of the `rateLimiter` object: the per-identifier request
counts and the end-of-window timestamp `resetTime`. -/
structure RateLimiterState where
  requestCounts : List (String × Nat)
  resetTime : Nat
deriving DecidableEq, Repr

namespace rateLimiter

/-- `windowMs: 60 * 1000` from the source. -/
def windowMs : Nat := 60 * 1000

/-- `maxRequests: 10` from the source. -/
def maxRequests : Nat := 10

/-- The body of `rateLimiter.check(req, res, next)` from `server/index.js`:
if `Date.now() > this.resetTime` clear all counts and set
`resetTime = now + windowMs`; then read the caller's count; if it is
`>= maxRequests` answer 429 with
`retryAfter = Math.ceil((resetTime - now) / 1000)` (on `Nat` the ceiling
of `x / 1000` is `(x + 999) / 1000`); otherwise store `count + 1` and
call `next()`.  `now` stands for the value of `Date.now()` during the
call. -/
def check (now : Nat) (ip : String) (st : RateLimiterState) :
    CheckOutcome × RateLimiterState :=
  let st1 := if st.resetTime < now then
      { requestCounts := [], resetTime := now + windowMs }
    else st
  let currentCount := getCount st1.requestCounts ip
  if maxRequests ≤ currentCount then
    (CheckOutcome.tooMany "Too many requests, please try again later."
        ((st1.resetTime - now + 999) / 1000), st1)
  else
    (CheckOutcome.next,
     { st1 with requestCounts := setCount st1.requestCounts ip (currentCount + 1) })

end rateLimiter

/-- Run `rateLimiter.check` once per timestamp in `ts`, all from the same
client `ip`, threading the limiter state; returns the outcomes in order
together with the final state. -/
def checkRun (ts : List Nat) (ip : String) (st : RateLimiterState) :
    List CheckOutcome × RateLimiterState :=
  match ts with
  | [] => ([], st)
  | t :: rest =>
      let r := rateLimiter.check t ip st
      let rr := checkRun rest ip r.2
      (r.1 :: rr.1, rr.2)

theorem getCount_setCount_self (l : List (String × Nat)) (ip : String) (v : Nat) :
    getCount (setCount l ip v) ip = v := by
  induction l with
  | nil => simp [setCount, getCount]
  | cons hd tl ih =>
      obtain ⟨k, c⟩ := hd
      by_cases h : k = ip
      · simp [setCount, getCount, h]
      · simp [setCount, getCount, h, ih]

theorem getCount_setCount_ne (l : List (String × Nat)) (ip j : String) (v : Nat)
    (h : j ≠ ip) : getCount (setCount l ip v) j = getCount l j := by
  induction l with
  | nil =>
      have hij : ¬ ip = j := fun hh => h hh.symm
      simp [setCount, getCount, hij]
  | cons hd tl ih =>
      obtain ⟨k, c⟩ := hd
      by_cases hk : k = ip
      · subst hk
        have hkj : ¬ k = j := fun hh => h hh.symm
        simp [setCount, getCount, hkj]
      · simp [setCount, getCount, hk, ih]

/-- An in-window call (`now ≤ resetTime`) from a caller whose count is
below the limit: the middleware lets the request through and only bumps
the caller's count. -/
theorem check_step_allowed (now : Nat) (ip : String) (st : RateLimiterState)
    (hwin : now ≤ st.resetTime)
    (hcnt : getCount st.requestCounts ip < rateLimiter.maxRequests) :
    rateLimiter.check now ip st =
      (CheckOutcome.next,
       { requestCounts := setCount st.requestCounts ip (getCount st.requestCounts ip + 1),
         resetTime := st.resetTime }) := by
  unfold rateLimiter.check
  have hlt : ¬ st.resetTime < now := not_lt.mpr hwin
  simp [hlt, not_le.mpr hcnt]

/-- An in-window call from a caller at or above the limit: 429 with
`retryAfter = ceil((resetTime - now)/1000)` and the state untouched. -/
theorem check_step_denied (now : Nat) (ip : String) (st : RateLimiterState)
    (hwin : now ≤ st.resetTime)
    (hcnt : rateLimiter.maxRequests ≤ getCount st.requestCounts ip) :
    rateLimiter.check now ip st =
      (CheckOutcome.tooMany "Too many requests, please try again later."
         ((st.resetTime - now + 999) / 1000), st) := by
  unfold rateLimiter.check
  have hlt : ¬ st.resetTime < now := not_lt.mpr hwin
  simp [hlt, hcnt]

/-- A call after the stored window end (`resetTime < now`): all counts are
cleared, the window end moves to `now + windowMs`, the caller's count
becomes 1 and the request is allowed. -/
theorem check_step_reset (now : Nat) (ip : String) (st : RateLimiterState)
    (hpast : st.resetTime < now) :
    rateLimiter.check now ip st =
      (CheckOutcome.next,
       { requestCounts := [(ip, 1)], resetTime := now + rateLimiter.windowMs }) := by
  unfold rateLimiter.check
  simp [hpast, getCount, setCount, rateLimiter.maxRequests]

/-- Running several in-window calls that stay within the limit: every call
is allowed, the window end does not move, the caller's count grows by the
number of calls and nobody else's count changes. -/
theorem checkRun_within (ts : List Nat) (ip : String) (st : RateLimiterState)
    (hts : ∀ t ∈ ts, t ≤ st.resetTime)
    (hcnt : getCount st.requestCounts ip + ts.length ≤ rateLimiter.maxRequests) :
    (checkRun ts ip st).1 = List.replicate ts.length CheckOutcome.next ∧
    (checkRun ts ip st).2.resetTime = st.resetTime ∧
    getCount (checkRun ts ip st).2.requestCounts ip
      = getCount st.requestCounts ip + ts.length ∧
    ∀ j, j ≠ ip →
      getCount (checkRun ts ip st).2.requestCounts j = getCount st.requestCounts j := by
  induction ts generalizing st with
  | nil => simp [checkRun]
  | cons t rest ih =>
      have hwin : t ≤ st.resetTime := hts t (List.mem_cons_self t rest)
      have hlt : getCount st.requestCounts ip < rateLimiter.maxRequests := by
        have := hcnt
        simp [List.length_cons] at this
        omega
      have hstep := check_step_allowed t ip st hwin hlt
      have hrest :
          checkRun (t :: rest) ip st =
            ((rateLimiter.check t ip st).1 :: (checkRun rest ip (rateLimiter.check t ip st).2).1,
             (checkRun rest ip (rateLimiter.check t ip st).2).2) := rfl
      set st2 : RateLimiterState :=
        { requestCounts := setCount st.requestCounts ip (getCount st.requestCounts ip + 1),
          resetTime := st.resetTime } with hst2
      have hts2 : ∀ u ∈ rest, u ≤ st2.resetTime := by
        intro u hu
        have := hts u (List.mem_cons_of_mem t hu)
        simpa [hst2] using this
      have hcnt2 : getCount st2.requestCounts ip + rest.length ≤ rateLimiter.maxRequests := by
        have hself : getCount st2.requestCounts ip = getCount st.requestCounts ip + 1 := by
          simp [hst2, getCount_setCount_self]
        rw [hself]
        simp [List.length_cons] at hcnt
        omega
      obtain ⟨ih1, ih2, ih3, ih4⟩ := ih st2 hts2 hcnt2
      refine ⟨?_, ?_, ?_, ?_⟩
      · rw [hrest]
        simp [hstep, ih1, List.replicate]
      · rw [hrest]
        simpa [hstep, hst2] using ih2
      · rw [hrest]
        have := ih3
        simp [hstep]
        rw [hst2] at this
        simp [getCount_setCount_self] at this
        simp [hst2] at this ⊢
        omega
      · intro j hj
        rw [hrest]
        have := ih4 j hj
        simp [hstep]
        rw [hst2] at this
        simp [getCount_setCount_ne _ _ _ _ hj] at this
        simpa [hst2] using this

/-- Claim C1: starting a fresh window (no counts, window end `t0`), the
first 10 (`maxRequests`) calls from one identifier inside the window are
all allowed; the 11th call inside the window is answered 429 with the
fixed error message and `retryAfter = ceil((t0 - now)/1000)`; and any call
made after the stored window end clears all counts, sets the new window
end to `now + windowMs` and is allowed. -/
theorem c1_rate_limit_window (ip : String) (t0 t11 : Nat) (ts : List Nat)
    (hlen : ts.length = 10) (hts : ∀ t ∈ ts, t ≤ t0) (h11 : t11 ≤ t0) :
    (checkRun ts ip ⟨[], t0⟩).1 = List.replicate 10 CheckOutcome.next ∧
    (rateLimiter.check t11 ip (checkRun ts ip ⟨[], t0⟩).2).1 =
      CheckOutcome.tooMany "Too many requests, please try again later."
        ((t0 - t11 + 999) / 1000) ∧
    (∀ (st : RateLimiterState) (now : Nat), st.resetTime < now →
       rateLimiter.check now ip st =
         (CheckOutcome.next,
          { requestCounts := [(ip, 1)], resetTime := now + rateLimiter.windowMs })) := by
  have hbase := checkRun_within ts ip ⟨[], t0⟩ hts
      (by simp [getCount, hlen, rateLimiter.maxRequests])
  obtain ⟨h1, h2, h3, h4⟩ := hbase
  refine ⟨by simpa [hlen] using h1, ?_, fun st now hp => check_step_reset now ip st hp⟩
  have hwin : t11 ≤ (checkRun ts ip ⟨[], t0⟩).2.resetTime := by
    rw [h2]; exact h11
  have hcnt : rateLimiter.maxRequests ≤
      getCount (checkRun ts ip ⟨[], t0⟩).2.requestCounts ip := by
    rw [h3]
    simp [getCount, hlen, rateLimiter.maxRequests]
  have hd := check_step_denied t11 ip (checkRun ts ip ⟨[], t0⟩).2 hwin hcnt
  rw [hd, h2]

/-- Witness for C1: ten calls at time 0 from `9.9.9.9` in the window
ending at 60000, an 11th at time 0. -/
theorem c1_rate_limit_window_witness :
    ((List.replicate 10 0).length = 10 ∧ (∀ t ∈ List.replicate 10 (0 : Nat), t ≤ 60000) ∧
      (0 : Nat) ≤ 60000) ∧
    ((checkRun (List.replicate 10 0) "9.9.9.9" ⟨[], 60000⟩).1 =
        List.replicate 10 CheckOutcome.next ∧
      (rateLimiter.check 0 "9.9.9.9" (checkRun (List.replicate 10 0) "9.9.9.9" ⟨[], 60000⟩).2).1 =
        CheckOutcome.tooMany "Too many requests, please try again later."
          ((60000 - 0 + 999) / 1000) ∧
      (∀ (st : RateLimiterState) (now : Nat), st.resetTime < now →
         rateLimiter.check now "9.9.9.9" st =
           (CheckOutcome.next,
            { requestCounts := [("9.9.9.9", 1)], resetTime := now + rateLimiter.windowMs }))) :=
  ⟨⟨by decide, by decide, by decide⟩,
   c1_rate_limit_window "9.9.9.9" 60000 0 (List.replicate 10 0)
     (by decide) (by decide) (by decide)⟩

/-- Claim C5: whenever `rateLimiter.check` answers 429, the `retryAfter`
in the body equals `ceil((resetTime - now)/1000)` where `resetTime` is
the stored window end (which a denial never moves) and `now` the time of
the call; moreover a denial can only happen inside the window. -/
theorem c5_retry_after (now : Nat) (ip : String) (st : RateLimiterState)
    (e : String) (ra : Nat)
    (h : (rateLimiter.check now ip st).1 = CheckOutcome.tooMany e ra) :
    ra = (st.resetTime - now + 999) / 1000 ∧ now ≤ st.resetTime := by
  rcases le_or_lt now st.resetTime with hp | hp
  · by_cases hc : rateLimiter.maxRequests ≤ getCount st.requestCounts ip
    · rw [check_step_denied now ip st hp hc] at h
      simp only [CheckOutcome.tooMany.injEq] at h
      exact ⟨h.2.symm, hp⟩
    · rw [check_step_allowed now ip st hp (not_le.mp hc)] at h
      simp at h
  · rw [check_step_reset now ip st hp] at h
    simp at h

/-- Witness for C5: identifier `a` already at 10 requests, call at time
500 in a window ending at 100000. -/
theorem c5_retry_after_witness :
    ((rateLimiter.check 500 "a" ⟨[("a", 10)], 100000⟩).1 =
        CheckOutcome.tooMany "Too many requests, please try again later." 100) ∧
    (100 = (100000 - 500 + 999) / 1000 ∧ (500 : Nat) ≤ 100000) :=
  ⟨by decide, c5_retry_after 500 "a" ⟨[("a", 10)], 100000⟩
      "Too many requests, please try again later." 100 (by decide)⟩

/-- Claim C6 counterexample: with identifier `a` holding count 5 and the
window already over (`resetTime = 0 < now = 1`), the call from `b` is
allowed, yet `a`'s count drops from 5 to 0 and the window end moves to
`1 + windowMs` — so an allowed call does not always leave other
identifiers' counts and the reset time unchanged. -/
theorem c6_counterexample :
    (rateLimiter.check 1 "b" ⟨[("a", 5)], 0⟩).1 = CheckOutcome.next ∧
    getCount ([("a", 5)] : List (String × Nat)) "a" = 5 ∧
    getCount (rateLimiter.check 1 "b" ⟨[("a", 5)], 0⟩).2.requestCounts "a" = 0 ∧
    (rateLimiter.check 1 "b" ⟨[("a", 5)], 0⟩).2.resetTime = 60001 := by decide

/-- Claim C6 (amended): a denied call leaves the limiter state unchanged;
an allowed call made inside the stored window (`now ≤ resetTime`)
increments exactly the caller's count by one, leaving every other count
and the window end unchanged; an allowed call made after the window end
instead clears all counts, stores count 1 for the caller and moves the
window end to `now + windowMs`. -/
theorem c6_state_change (now : Nat) (ip : String) (st : RateLimiterState) :
    (∀ e ra, (rateLimiter.check now ip st).1 = CheckOutcome.tooMany e ra →
        (rateLimiter.check now ip st).2 = st) ∧
    (now ≤ st.resetTime → (rateLimiter.check now ip st).1 = CheckOutcome.next →
        getCount (rateLimiter.check now ip st).2.requestCounts ip
          = getCount st.requestCounts ip + 1 ∧
        (∀ j, j ≠ ip → getCount (rateLimiter.check now ip st).2.requestCounts j
          = getCount st.requestCounts j) ∧
        (rateLimiter.check now ip st).2.resetTime = st.resetTime) ∧
    (st.resetTime < now →
        rateLimiter.check now ip st =
          (CheckOutcome.next, ⟨[(ip, 1)], now + rateLimiter.windowMs⟩)) := by
  refine ⟨?_, ?_, fun hp => check_step_reset now ip st hp⟩
  · intro e ra h
    rcases le_or_lt now st.resetTime with hp | hp
    · by_cases hc : rateLimiter.maxRequests ≤ getCount st.requestCounts ip
      · rw [check_step_denied now ip st hp hc]
      · rw [check_step_allowed now ip st hp (not_le.mp hc)] at h
        simp at h
    · rw [check_step_reset now ip st hp] at h
      simp at h
  · intro hwin hnext
    by_cases hc : rateLimiter.maxRequests ≤ getCount st.requestCounts ip
    · rw [check_step_denied now ip st hwin hc] at hnext
      simp at hnext
    · rw [check_step_allowed now ip st hwin (not_le.mp hc)]
      exact ⟨by simp [getCount_setCount_self],
             fun j hj => by simp [getCount_setCount_ne _ _ _ _ hj], rfl⟩

/-- Witness for C6 (amended) at a concrete in-window state. -/
theorem c6_state_change_witness :
    ((rateLimiter.check 10 "a" ⟨[("a", 3)], 60000⟩).1 = CheckOutcome.next ∧
      (10 : Nat) ≤ 60000) ∧
    (getCount (rateLimiter.check 10 "a" ⟨[("a", 3)], 60000⟩).2.requestCounts "a"
        = getCount ([("a", 3)] : List (String × Nat)) "a" + 1 ∧
      (∀ j, j ≠ "a" → getCount (rateLimiter.check 10 "a" ⟨[("a", 3)], 60000⟩).2.requestCounts j
        = getCount ([("a", 3)] : List (String × Nat)) j) ∧
      (rateLimiter.check 10 "a" ⟨[("a", 3)], 60000⟩).2.resetTime = 60000) :=
  ⟨⟨by decide, by decide⟩,
   (c6_state_change 10 "a" ⟨[("a", 3)], 60000⟩).2.1 (by decide) (by decide)⟩

/-- Body of `POST /api/predict`: `{topic, category, timeframe, context}`.
A missing `topic` in JS is falsy like the empty string, so absence is
modelled by `""`. -/
structure PredictionRequest where
  topic : String
  category : String
  timeframe : String
  context : String
deriving DecidableEq, Repr

/-- The record built by `generatePredictionData`; `confidence` is the
integer percentage and `lastUpdated` the formatted timestamp string.
The JS field `variables` is embedded as `variables_` because `variables`
is a reserved word here. -/
structure PredictionResult where
  topic : String
  category : String
  timeframe : String
  prediction : String
  confidence : Nat
  trend : String
  dataPoints : List String
  variables_ : List String
  historicalPatterns : List String
  alternativeScenarios : List String
  lastUpdated : String
deriving DecidableEq, Repr

/-- JS `Math.floor(r * n)` where `r` is a `Math.random()` draw. -/
def randFloor (r : Rat) (n : Nat) : Nat := (Int.floor (r * (n : Rat))).toNat

theorem randFloor_lt (r : Rat) (n : Nat) (h0 : 0 ≤ r) (h1 : r < 1) (hn : 0 < n) :
    randFloor r n < n := by
  unfold randFloor
  have hn' : (0 : Rat) < n := by exact_mod_cast hn
  have hmul : r * (n : Rat) < (n : Rat) := by
    calc r * (n : Rat) < 1 * (n : Rat) := mul_lt_mul_of_pos_right h1 hn'
    _ = (n : Rat) := one_mul _
  have hfl : Int.floor (r * (n : Rat)) < (n : Int) := by
    rw [Int.floor_lt]
    exact_mod_cast hmul
  omega

/-- `formatTimeframe` from the local-template snapshot of
`server/index.js` (the variant returning `week`, `month`, ...). -/
def formatTimeframe (timeframe : String) : String :=
  match timeframe with
  | "1week" => "week"
  | "1month" => "month"
  | "3months" => "three months"
  | "6months" => "six months"
  | "1year" => "year"
  | "5years" => "five years"
  | _ => "coming period"

/-- The `upPredictions` template list of `generateFinancePrediction`, with
the topic and formatted timeframe interpolated. -/
def upPredictions (topic timeframe : String) : List String :=
  [topic ++ " is projected to experience growth over the " ++ formatTimeframe timeframe ++
     ". Market indicators suggest positive momentum with potential for increased valuation.",
   "Analysis indicates an upward trajectory for " ++ topic ++ " in the coming " ++
     formatTimeframe timeframe ++
     ". Fundamental factors and technical indicators align for potential appreciation.",
   topic ++ " shows promising growth potential over the next " ++ formatTimeframe timeframe ++
     ". Market conditions and sector performance suggest favorable positioning."]

/-- The `downPredictions` template list of `generateFinancePrediction`. -/
def downPredictions (topic timeframe : String) : List String :=
  [topic ++ " may face challenges in the " ++ formatTimeframe timeframe ++
     " ahead. Market indicators suggest potential correction or valuation adjustment.",
   "Analysis indicates a potential downward adjustment for " ++ topic ++ " over the next " ++
     formatTimeframe timeframe ++ ". Investors should consider defensive positioning.",
   topic ++ " shows signs of potential decline in the coming " ++ formatTimeframe timeframe ++
     ". Market conditions and competitive pressures may impact performance."]

/-- The `neutralPredictions` template list of `generateFinancePrediction`. -/
def neutralPredictions (topic timeframe : String) : List String :=
  [topic ++ " is likely to maintain relatively stable performance over the " ++
     formatTimeframe timeframe ++
     ". Significant volatility appears limited based on current indicators.",
   "Analysis suggests " ++ topic ++ " will trade within a defined range for the next " ++
     formatTimeframe timeframe ++ ". No strong directional bias is indicated by current metrics.",
   topic ++ " is projected to experience balanced forces over the coming " ++
     formatTimeframe timeframe ++ ", resulting in relatively neutral performance."]

/-- `generateFinancePrediction(topic, timeframe, trend)`: pick a template
uniformly from the list matching the trend; `r` is the `Math.random()`
draw of the call. -/
def generateFinancePrediction (r : Rat) (topic timeframe trend : String) : String :=
  if trend = "up" then
    (upPredictions topic timeframe).getD (randFloor r (upPredictions topic timeframe).length) ""
  else if trend = "down" then
    (downPredictions topic timeframe).getD (randFloor r (downPredictions topic timeframe).length) ""
  else
    (neutralPredictions topic timeframe).getD
      (randFloor r (neutralPredictions topic timeframe).length) ""

/-- `generateFinanceDataPoints(topic)` from `server/index.js`. -/
def generateFinanceDataPoints (topic : String) : List String :=
  [topic ++ " has shown a correlation with broader market indices of 0.76",
   "Technical indicators suggest a potential support level at recent lows",
   "Institutional ownership has changed by 4.3% in the last quarter",
   "Volatility metrics indicate lower than average expected movement",
   "Sector performance shows similar assets moving in the same direction"]

theorem getD_mem_of_lt {α : Type} (l : List α) (i : Nat) (d : α) (h : i < l.length) :
    l.getD i d ∈ l := by
  rw [List.getD_eq_getElem l d h]
  exact List.getElem_mem h

/-- Template list of `generateSportsPrediction`. -/
def sportsPredictions (topic timeframe : String) : List String :=
  [topic ++ " shows strong potential for success in the upcoming " ++
     formatTimeframe timeframe ++
     ". Performance metrics and competitive analysis suggest favorable outcomes.",
   "Based on current form and historical performance, " ++ topic ++
     " is projected to achieve above-average results in the " ++
     formatTimeframe timeframe ++ " ahead.",
   "Analysis of " ++ topic ++
     "\x27s recent performance indicates potential for significant achievement within the next " ++
     formatTimeframe timeframe ++ ", though competition remains strong.",
   topic ++ " faces mixed prospects in the coming " ++ formatTimeframe timeframe ++
     ". While strengths are evident in certain areas, challenges may limit overall success."]

/-- `generateSportsPrediction(topic, timeframe)`. -/
def generateSportsPrediction (r : Rat) (topic timeframe : String) : String :=
  (sportsPredictions topic timeframe).getD
    (randFloor r (sportsPredictions topic timeframe).length) ""

/-- Template list of `generateEntertainmentPrediction`. -/
def entertainmentPredictions (topic timeframe : String) : List String :=
  [topic ++ " is projected to generate significant audience interest over the next " ++
     formatTimeframe timeframe ++
     ". Engagement metrics and early indicators suggest strong reception.",
   "Analysis indicates " ++ topic ++ " will likely achieve above-average popularity within the " ++
     formatTimeframe timeframe ++ ", potentially establishing a strong position in its category.",
   topic ++ " shows promising potential for cultural impact in the coming " ++
     formatTimeframe timeframe ++
     ". Current trends and audience sentiment suggest favorable reception.",
   "Based on comparable releases and market positioning, " ++ topic ++
     " may experience moderate success over the next " ++ formatTimeframe timeframe ++
     " with potential for growth."]

/-- `generateEntertainmentPrediction(topic, timeframe)`. -/
def generateEntertainmentPrediction (r : Rat) (topic timeframe : String) : String :=
  (entertainmentPredictions topic timeframe).getD
    (randFloor r (entertainmentPredictions topic timeframe).length) ""

/-- Template list of `generateGlobalPrediction`. -/
def globalPredictions (topic timeframe : String) : List String :=
  [topic ++ " is likely to evolve significantly over the next " ++ formatTimeframe timeframe ++
     ". Current diplomatic efforts and stakeholder positions suggest movement toward resolution.",
   "Analysis indicates " ++ topic ++ " will remain a focal point for the coming " ++
     formatTimeframe timeframe ++ ", with gradual developments rather than dramatic shifts.",
   topic ++ " shows signs of potential breakthrough within the " ++ formatTimeframe timeframe ++
     ". Key indicators suggest conditions may be favorable for progress.",
   "Based on historical precedents and current dynamics, " ++ topic ++
     " may experience complex developments over the next " ++ formatTimeframe timeframe ++
     " with multiple competing influences."]

/-- `generateGlobalPrediction(topic, timeframe)`. -/
def generateGlobalPrediction (r : Rat) (topic timeframe : String) : String :=
  (globalPredictions topic timeframe).getD
    (randFloor r (globalPredictions topic timeframe).length) ""

/-- Template list of `generateEnvironmentPrediction`. -/
def environmentPredictions (topic timeframe : String) : List String :=
  [topic ++ " is projected to show measurable changes over the next " ++
     formatTimeframe timeframe ++
     ". Scientific models suggest continued trends with potential acceleration.",
   "Analysis indicates " ++ topic ++ " will likely experience significant developments within the " ++
     formatTimeframe timeframe ++ ", with implications for related environmental systems.",
   topic ++ " shows signs of potential stabilization in the coming " ++
     formatTimeframe timeframe ++
     ", though regional variations may present a more complex picture.",
   "Based on current measurements and intervention efforts, " ++ topic ++
     " may see gradual improvement over the next " ++ formatTimeframe timeframe ++
     ", contingent on continued action."]

/-- `generateEnvironmentPrediction(topic, timeframe)`. -/
def generateEnvironmentPrediction (r : Rat) (topic timeframe : String) : String :=
  (environmentPredictions topic timeframe).getD
    (randFloor r (environmentPredictions topic timeframe).length) ""

/-- Template list of `generateTechnologyPrediction`. -/
def technologyPredictions (topic timeframe : String) : List String :=
  [topic ++ " is poised for significant advancement in the next " ++
     formatTimeframe timeframe ++
     ". Development roadmaps and research progress suggest breakthrough potential.",
   "Analysis indicates " ++ topic ++ " will likely achieve important milestones within the " ++
     formatTimeframe timeframe ++ ", potentially transforming related technological domains.",
   topic ++ " shows promising development trajectory for the coming " ++
     formatTimeframe timeframe ++
     ". Current progress and investment patterns suggest accelerating innovation.",
   "Based on current research and implementation efforts, " ++ topic ++
     " may reach commercial viability within the next " ++ formatTimeframe timeframe ++
     ", though challenges remain."]

/-- `generateTechnologyPrediction(topic, timeframe)`. -/
def generateTechnologyPrediction (r : Rat) (topic timeframe : String) : String :=
  (technologyPredictions topic timeframe).getD
    (randFloor r (technologyPredictions topic timeframe).length) ""

/-- `generatePredictionData(request)` from the local-template snapshot of
`server/index.js`: draw `confidence = Math.floor(Math.random()*46)+50` and
a trend from `['up','down','neutral']`, then fill the category-specific
prediction template and static lists (the `switch` statement), and build
the result record.  `rand i` is the i-th `Math.random()` call of the
invocation (`rand 2` is the draw made inside the per-category template
helper) and `lastUpdated` stands for the formatted `new Date()`
timestamp. -/
def generatePredictionData (rand : Nat → Rat) (lastUpdated : String)
    (request : PredictionRequest) : PredictionResult :=
  let confidence := randFloor (rand 0) 46 + 50
  let trendOptions : List String := ["up", "down", "neutral"]
  let trend := trendOptions.getD (randFloor (rand 1) trendOptions.length) ""
  let parts : String × List String × List String × List String × List String :=
    match request.category with
    | "finance" =>
        (generateFinancePrediction (rand 2) request.topic request.timeframe trend,
         generateFinanceDataPoints request.topic,
         ["Central bank interest rate decisions",
          "Quarterly earnings reports",
          "Geopolitical tensions affecting markets",
          "Regulatory changes in the industry",
          "Unexpected market volatility"],
         ["Similar assets have shown cyclical patterns over 5-year periods",
          "Previous market corrections of this magnitude typically recover within 18 months",
          "Sector rotation typically follows this pattern during economic transitions"],
         ["Rapid growth scenario: Exceeding market expectations by 15-20%",
          "Moderate decline scenario: Temporary setback followed by recovery",
          "Stagnation scenario: Extended period of minimal movement"])
    | "sports" =>
        (generateSportsPrediction (rand 2) request.topic request.timeframe,
         ["Historical performance in similar competitions",
          "Current team/athlete form and recent results",
          "Head-to-head statistics against likely opponents",
          "Injury reports and team composition changes",
          "Venue and environmental factors"],
         ["Unexpected injuries to key players",
          "Weather conditions affecting performance",
          "Coaching or strategic changes",
          "Psychological factors and team morale",
          "Referee decisions in critical moments"],
         ["Teams with similar statistics have achieved comparable results in past tournaments",
          "Historical performance patterns in this competition suggest cyclical success rates",
          "Previous champions have shown similar performance metrics at this stage"],
         ["Underdog victory scenario: Unexpected breakthrough performance",
          "Favorite dominance scenario: Clear victory with significant margin",
          "Competitive balance scenario: Close contest with unpredictable outcome"])
    | "entertainment" =>
        (generateEntertainmentPrediction (rand 2) request.topic request.timeframe,
         ["Current trends in audience preferences",
          "Historical performance of similar content/artists",
          "Industry expert opinions and early reviews",
          "Social media sentiment and engagement metrics",
          "Market positioning and promotional strategy"],
         ["Competing releases in the same timeframe",
          "Critical reception and word-of-mouth",
          "Unexpected controversies or publicity",
          "Platform algorithm changes affecting visibility",
          "Cultural events impacting public interest"],
         ["Similar content has followed predictable audience growth patterns",
          "Seasonal trends show consistent preferences during this period",
          "Previous works by the same creators show recognizable reception patterns"],
         ["Breakout success scenario: Exceeding expectations with viral popularity",
          "Niche appeal scenario: Strong dedicated following but limited mainstream impact",
          "Delayed recognition scenario: Slow start followed by growing appreciation"])
    | "global" =>
        (generateGlobalPrediction (rand 2) request.topic request.timeframe,
         ["Historical precedents in similar situations",
          "Current diplomatic relations between key actors",
          "Economic indicators and trade relationships",
          "Public opinion polling and sentiment analysis",
          "Expert analysis from political scientists and regional specialists"],
         ["Unexpected leadership changes or elections",
          "Natural disasters or humanitarian crises",
          "Technological disruptions affecting governance",
          "Shifts in international alliances",
          "Economic shocks or financial crises"],
         ["Similar geopolitical tensions have resolved through diplomatic channels historically",
          "Regional power dynamics have followed predictable patterns in comparable situations",
          "Economic interdependence has influenced political outcomes in similar cases"],
         ["Cooperation scenario: Increased international collaboration and resolution",
          "Escalation scenario: Heightened tensions with potential for conflict",
          "Status quo scenario: Continued uncertainty with minimal substantive change"])
    | "environment" =>
        (generateEnvironmentPrediction (rand 2) request.topic request.timeframe,
         ["Current measurement trends and scientific observations",
          "Climate modeling projections from multiple sources",
          "Historical data patterns and seasonal variations",
          "Policy implementation timelines and effectiveness metrics",
          "Technological adoption rates for relevant solutions"],
         ["Policy changes affecting environmental regulations",
          "Technological breakthroughs in relevant fields",
          "Natural events affecting measurement accuracy",
          "Changes in industrial activity or emissions",
          "Public behavior and consumption pattern shifts"],
         ["Similar environmental interventions have shown measurable impacts within comparable timeframes",
          "Seasonal and cyclical patterns suggest predictable variations in measurements",
          "Previous policy implementations have demonstrated similar adoption and compliance rates"],
         ["Accelerated improvement scenario: Faster than expected positive change",
          "Delayed impact scenario: Slower response with eventual improvement",
          "Mixed outcome scenario: Improvements in some metrics offset by challenges in others"])
    | "technology" =>
        (generateTechnologyPrediction (rand 2) request.topic request.timeframe,
         ["Current development roadmaps and industry announcements",
          "Investment patterns in relevant sectors",
          "Patent filings and research publication trends",
          "Early adoption metrics and user feedback",
          "Regulatory environment and compliance requirements"],
         ["Competitive technology developments",
          "Regulatory changes affecting implementation",
          "Supply chain disruptions or component availability",
          "Consumer adoption rates and market acceptance",
          "Unforeseen technical challenges or limitations"],
         ["Similar technologies have followed predictable adoption curves",
          "Previous iterations have demonstrated consistent improvement metrics",
          "Market penetration for comparable innovations shows recognizable patterns"],
         ["Rapid adoption scenario: Faster than expected market penetration",
          "Niche application scenario: Limited but valuable specialized use cases",
          "Disruptive impact scenario: Unexpected applications transforming adjacent industries"])
    | _ =>
        ("Based on available data, we predict moderate changes with potential for significant developments depending on several key factors.",
         ["Current trends suggest continued interest in this area",
          "Historical patterns indicate cyclical behavior",
          "Expert opinions are divided but cautiously optimistic",
          "Related indicators show correlated movement",
          "Preliminary data suggests emerging patterns"],
         ["Unexpected developments in related areas",
          "Changes in public interest or engagement",
          "Resource allocation and priority shifts",
          "External events affecting focus or implementation",
          "New information changing fundamental assumptions"],
         ["Similar situations have resolved with mixed outcomes",
          "Previous instances show gradual progression rather than sudden changes",
          "Cyclical patterns suggest predictable variations over time"],
         ["Positive outcome scenario: Better than expected results",
          "Negative outcome scenario: Challenges exceeding anticipated difficulties",
          "Mixed outcome scenario: Varied results across different aspects"])
  { topic := request.topic
    category := request.category
    timeframe := request.timeframe
    prediction := parts.1
    confidence := confidence
    trend := trend
    dataPoints := parts.2.1
    variables_ := parts.2.2.1
    historicalPatterns := parts.2.2.2.1
    alternativeScenarios := parts.2.2.2.2
    lastUpdated := lastUpdated }

/-- Extension of a digit match: the leading digit run of the list. -/
def digitsAfter : List Char → List Char
| [] => []
| c :: cs => if c.isDigit then c :: digitsAfter cs else []

/-- First maximal digit run of the character list, if any — the JS regex
match `/\d+/`. -/
def firstDigitRun : List Char → Option (List Char)
| [] => none
| c :: cs => if c.isDigit then some (c :: digitsAfter cs) else firstDigitRun cs

/-- JS `parseInt` on a nonempty digit string. -/
def parseDigits (l : List Char) : Nat :=
  l.foldl (fun acc c => acc * 10 + (c.toNat - 48)) 0

/-- `confidenceText.match(/\d+/)` followed by `parseInt(match[0])` from
the DeepSeek snapshot. -/
def extractFirstNat (s : String) : Option Nat :=
  (firstDigitRun s.data).map parseDigits

/-- JS `hay.includes(needle)` for a nonempty needle, via `splitOn`. -/
def includesSub (hay needle : String) : Bool := (hay.splitOn needle).length != 1

/-- Lines 250–255 of `sb1-pjmvdfam/server/index.js`: lowercase the model
reply; if it contains `up` the trend is `up`, else if it contains `down`
it is `down`, else `neutral`. -/
def normalizeTrend (trendText : String) : String :=
  if includesSub trendText.toLower "up" then "up"
  else if includesSub trendText.toLower "down" then "down"
  else "neutral"

/-- The JSON object parsed out of the DeepSeek prediction reply (keys
`prediction/dataPoints/variables/historicalPatterns/alternativeScenarios`;
`variables` is again embedded as `variables_`). -/
structure AiData where
  prediction : String
  dataPoints : List String
  variables_ : List String
  historicalPatterns : List String
  alternativeScenarios : List String
deriving DecidableEq, Repr

namespace Sb1

/-- Remote-mode `generatePredictionData` from
`sb1-pjmvdfam/server/index.js`, after its three DeepSeek round trips:
`aiData` is the parsed JSON of the first reply, `confidenceText` and
`trendText` the raw classification replies, `r` the `Math.random()` draw
of the fallback branch, `lastUpdated` the formatted timestamp.  The
confidence is `min(95, max(50, parseInt(first digits)))`, falling back to
`Math.floor(Math.random()*46)+50` when the reply holds no digits; the
trend is normalized to one of the three words. -/
def generatePredictionData (request : PredictionRequest) (aiData : AiData)
    (confidenceText trendText : String) (r : Rat) (lastUpdated : String) :
    PredictionResult :=
  let confidence :=
    match extractFirstNat confidenceText with
    | some n => min 95 (max 50 n)
    | none => randFloor r 46 + 50
  let trend := normalizeTrend trendText
  { topic := request.topic
    category := request.category
    timeframe := request.timeframe
    prediction := aiData.prediction
    confidence := confidence
    trend := trend
    dataPoints := aiData.dataPoints
    variables_ := aiData.variables_
    historicalPatterns := aiData.historicalPatterns
    alternativeScenarios := aiData.alternativeScenarios
    lastUpdated := lastUpdated }

end Sb1

theorem generatePredictionData_confidence (rand : Nat → Rat) (lastUpdated : String)
    (request : PredictionRequest) :
    (generatePredictionData rand lastUpdated request).confidence
      = randFloor (rand 0) 46 + 50 := rfl

theorem generatePredictionData_trend (rand : Nat → Rat) (lastUpdated : String)
    (request : PredictionRequest) :
    (generatePredictionData rand lastUpdated request).trend
      = (["up", "down", "neutral"] : List String).getD (randFloor (rand 1) 3) "" := rfl

theorem normalizeTrend_mem (trendText : String) :
    normalizeTrend trendText ∈ (["up", "down", "neutral"] : List String) := by
  unfold normalizeTrend
  split
  · simp
  · split <;> simp

/-- Claim C2: for every request with a non-empty topic, the synthesizer
returns an integer confidence in `[50, 95]` and a trend among
`up/down/neutral`; in local-template mode the confidence is
`Math.floor(Math.random()*46)+50` with the trend drawn from the
three-element list, and in remote mode the model-reported confidence is
clamped via `min(95, max(50, n))` (random fallback in the same range)
with the trend normalized to one of the three words. -/
theorem c2_confidence_and_trend_range
    (rand : Nat → Rat) (lastUpdated : String) (request : PredictionRequest)
    (aiData : AiData) (confidenceText trendText : String) (r : Rat)
    (hr : ∀ i, 0 ≤ rand i ∧ rand i < 1) (h0 : 0 ≤ r) (h1 : r < 1)
    (htopic : request.topic ≠ "") :
    (50 ≤ (generatePredictionData rand lastUpdated request).confidence ∧
      (generatePredictionData rand lastUpdated request).confidence ≤ 95 ∧
      (generatePredictionData rand lastUpdated request).trend ∈
        (["up", "down", "neutral"] : List String)) ∧
    (50 ≤ (Sb1.generatePredictionData request aiData confidenceText trendText r
        lastUpdated).confidence ∧
      (Sb1.generatePredictionData request aiData confidenceText trendText r
        lastUpdated).confidence ≤ 95 ∧
      (Sb1.generatePredictionData request aiData confidenceText trendText r
        lastUpdated).trend ∈ (["up", "down", "neutral"] : List String)) := by
  have hloc45 : randFloor (rand 0) 46 < 46 :=
    randFloor_lt (rand 0) 46 (hr 0).1 (hr 0).2 (by omega)
  have hrem45 : randFloor r 46 < 46 := randFloor_lt r 46 h0 h1 (by omega)
  have htr : randFloor (rand 1) 3 < 3 :=
    randFloor_lt (rand 1) 3 (hr 1).1 (hr 1).2 (by omega)
  refine ⟨⟨?_, ?_, ?_⟩, ⟨?_, ?_, ?_⟩⟩
  · rw [generatePredictionData_confidence]; omega
  · rw [generatePredictionData_confidence]; omega
  · rw [generatePredictionData_trend]
    exact getD_mem_of_lt _ _ _ (by simpa using htr)
  · show 50 ≤ (match extractFirstNat confidenceText with
      | some n => min 95 (max 50 n)
      | none => randFloor r 46 + 50)
    rcases extractFirstNat confidenceText with _ | n
    · show 50 ≤ randFloor r 46 + 50
      omega
    · exact le_min (by omega) (le_max_left 50 n)
  · show (match extractFirstNat confidenceText with
      | some n => min 95 (max 50 n)
      | none => randFloor r 46 + 50) ≤ 95
    rcases extractFirstNat confidenceText with _ | n
    · show randFloor r 46 + 50 ≤ 95
      omega
    · exact min_le_left 95 (max 50 n)
  · exact normalizeTrend_mem trendText

/-- Witness for C2: the all-zero random stream, a concrete request and
concrete model replies. -/
theorem c2_confidence_and_trend_range_witness :
    ((∀ i : Nat, 0 ≤ (fun _ : Nat => (0 : Rat)) i ∧ (fun _ : Nat => (0 : Rat)) i < 1) ∧
      (0 : Rat) ≤ 0 ∧ (0 : Rat) < 1 ∧
      (PredictionRequest.mk "Bitcoin price" "finance" "3months" "").topic ≠ "") ∧
    ((50 ≤ (generatePredictionData (fun _ => 0) "Jan 1, 2025, 12:00 PM"
          ⟨"Bitcoin price", "finance", "3months", ""⟩).confidence ∧
      (generatePredictionData (fun _ => 0) "Jan 1, 2025, 12:00 PM"
          ⟨"Bitcoin price", "finance", "3months", ""⟩).confidence ≤ 95 ∧
      (generatePredictionData (fun _ => 0) "Jan 1, 2025, 12:00 PM"
          ⟨"Bitcoin price", "finance", "3months", ""⟩).trend ∈
        (["up", "down", "neutral"] : List String)) ∧
    (50 ≤ (Sb1.generatePredictionData ⟨"Bitcoin price", "finance", "3months", ""⟩
          ⟨"p", ["d"], ["v"], ["h"], ["a"]⟩ "75" "up" 0 "Jan 1, 2025, 12:00 PM").confidence ∧
      (Sb1.generatePredictionData ⟨"Bitcoin price", "finance", "3months", ""⟩
          ⟨"p", ["d"], ["v"], ["h"], ["a"]⟩ "75" "up" 0 "Jan 1, 2025, 12:00 PM").confidence ≤ 95 ∧
      (Sb1.generatePredictionData ⟨"Bitcoin price", "finance", "3months", ""⟩
          ⟨"p", ["d"], ["v"], ["h"], ["a"]⟩ "75" "up" 0 "Jan 1, 2025, 12:00 PM").trend ∈
        (["up", "down", "neutral"] : List String))) :=
  ⟨⟨fun _ => ⟨le_refl 0, by norm_num⟩, le_refl 0, by norm_num, by decide⟩,
   c2_confidence_and_trend_range (fun _ => 0) "Jan 1, 2025, 12:00 PM"
     ⟨"Bitcoin price", "finance", "3months", ""⟩ ⟨"p", ["d"], ["v"], ["h"], ["a"]⟩
     "75" "up" 0 (fun _ => ⟨le_refl 0, by norm_num⟩) (le_refl 0) (by norm_num) (by decide)⟩

/-- Claim C7: in local-template mode, a finance prediction with trend
`up` is always one of the three finance up-trend templates, with the
literal topic string interpolated unchanged (the membership is in the
template set instantiated at exactly the given `topic`). -/
theorem c7_finance_up_templates (r : Rat) (topic timeframe : String)
    (h0 : 0 ≤ r) (h1 : r < 1) :
    generateFinancePrediction r topic timeframe "up" ∈ upPredictions topic timeframe := by
  unfold generateFinancePrediction
  simp only [if_pos rfl]
  exact getD_mem_of_lt _ _ _
    (randFloor_lt r _ h0 h1 (by simp [upPredictions]))

/-- Witness for C7 at `r = 0`, topic `Bitcoin price`, timeframe `3months`. -/
theorem c7_finance_up_templates_witness :
    ((0 : Rat) ≤ 0 ∧ (0 : Rat) < 1) ∧
    generateFinancePrediction 0 "Bitcoin price" "3months" "up" ∈
      upPredictions "Bitcoin price" "3months" :=
  ⟨⟨le_refl 0, by norm_num⟩,
   c7_finance_up_templates 0 "Bitcoin price" "3months" (le_refl 0) (by norm_num)⟩

/-- Claim C8: for the request
`{topic:"Bitcoin price", category:"finance", timeframe:"3months", context:""}`
the synthesizer's response carries category `finance`, timeframe
`3months`, exactly 5 data points, 3 historical patterns and 3 alternative
scenarios, whatever the random draws and timestamp. -/
theorem c8_example_scenario (rand : Nat → Rat) (lastUpdated : String) :
    (generatePredictionData rand lastUpdated
        ⟨"Bitcoin price", "finance", "3months", ""⟩).category = "finance" ∧
    (generatePredictionData rand lastUpdated
        ⟨"Bitcoin price", "finance", "3months", ""⟩).timeframe = "3months" ∧
    (generatePredictionData rand lastUpdated
        ⟨"Bitcoin price", "finance", "3months", ""⟩).dataPoints.length = 5 ∧
    (generatePredictionData rand lastUpdated
        ⟨"Bitcoin price", "finance", "3months", ""⟩).historicalPatterns.length = 3 ∧
    (generatePredictionData rand lastUpdated
        ⟨"Bitcoin price", "finance", "3months", ""⟩).alternativeScenarios.length = 3 :=
  ⟨rfl, rfl, rfl, rfl, rfl⟩

/-- Response sent by the `/api/predict` pipeline: 429 from the rate
limiter, 400 from validation, or 200 with the synthesized result. -/
inductive PredictResponse where
| rateLimited (error : String) (retryAfter : Nat) : PredictResponse
| badRequest (error : String) : PredictResponse
| ok (result : PredictionResult) : PredictResponse
deriving DecidableEq, Repr

/-- The `POST /api/predict` route callback of the local-template snapshot
(after the middleware): reject with 400 `Prediction topic is required`
when `!predictionRequest.topic` (empty/missing topic), otherwise call
`generatePredictionData` and send 200 with the result.  The returned
`Bool` records whether `generatePredictionData` was invoked during the
request.  (The `catch`/500 path is dead here: the local synthesizer never
throws.) -/
def predictRoute (rand : Nat → Rat) (lastUpdated : String)
    (body : PredictionRequest) : PredictResponse × Bool :=
  if body.topic = "" then
    (PredictResponse.badRequest "Prediction topic is required", false)
  else
    (PredictResponse.ok (generatePredictionData rand lastUpdated body), true)

/-- The whole `POST /api/predict` pipeline:
`rateLimiter.check` middleware first, then the route callback.  Returns
the response, the limiter state after the request, and whether
`generatePredictionData` ran. -/
def apiPredict (now : Nat) (ip : String) (rand : Nat → Rat) (lastUpdated : String)
    (body : PredictionRequest) (st : RateLimiterState) :
    PredictResponse × RateLimiterState × Bool :=
  match rateLimiter.check now ip st with
  | (CheckOutcome.tooMany e ra, st2) => (PredictResponse.rateLimited e ra, st2, false)
  | (CheckOutcome.next, st2) =>
      let r := predictRoute rand lastUpdated body
      (r.1, st2, r.2)

/-- Run the `/api/predict` pipeline once per timestamp in `ts`, all from
the same client and with the same request body, threading the limiter
state. -/
def apiPredictRun (ts : List Nat) (ip : String) (rand : Nat → Rat)
    (lastUpdated : String) (body : PredictionRequest) (st : RateLimiterState) :
    List PredictResponse × RateLimiterState :=
  match ts with
  | [] => ([], st)
  | t :: rest =>
      let r := apiPredict t ip rand lastUpdated body st
      let rr := apiPredictRun rest ip rand lastUpdated body r.2.1
      (r.1 :: rr.1, rr.2)

/-- Claim C4: a `POST /api/predict` body whose topic is empty (or
missing, which JS treats the same as empty) is answered 400 with the
error message, and `generatePredictionData` is not invoked for that
request. -/
theorem c4_empty_topic_400 (rand : Nat → Rat) (lastUpdated : String)
    (body : PredictionRequest) (h : body.topic = "") :
    predictRoute rand lastUpdated body =
      (PredictResponse.badRequest "Prediction topic is required", false) := by
  unfold predictRoute
  simp [h]

/-- Witness for C4 at an empty-topic body. -/
theorem c4_empty_topic_400_witness :
    (PredictionRequest.mk "" "finance" "1week" "").topic = "" ∧
    predictRoute (fun _ => 0) "Jan 1, 2025, 12:00 PM" ⟨"", "finance", "1week", ""⟩ =
      (PredictResponse.badRequest "Prediction topic is required", false) :=
  ⟨rfl, c4_empty_topic_400 (fun _ => 0) "Jan 1, 2025, 12:00 PM"
      ⟨"", "finance", "1week", ""⟩ rfl⟩

/-- The pipeline's limiter state always equals the state left by the
middleware alone, and an in-window allowed call with an empty-topic body
yields 400 without invoking the synthesizer. -/
theorem apiPredict_step (now : Nat) (ip : String) (rand : Nat → Rat)
    (lastUpdated : String) (body : PredictionRequest) (st : RateLimiterState)
    (hb : body.topic = "") (hwin : now ≤ st.resetTime)
    (hcnt : getCount st.requestCounts ip < rateLimiter.maxRequests) :
    apiPredict now ip rand lastUpdated body st =
      (PredictResponse.badRequest "Prediction topic is required",
       { requestCounts := setCount st.requestCounts ip (getCount st.requestCounts ip + 1),
         resetTime := st.resetTime }, false) := by
  unfold apiPredict
  rw [check_step_allowed now ip st hwin hcnt]
  simp [predictRoute, hb]

/-- Running in-window empty-topic requests that stay within the limit:
every one is answered 400 and the limiter state evolves exactly as under
`checkRun`. -/
theorem apiPredictRun_within (ts : List Nat) (ip : String) (rand : Nat → Rat)
    (lastUpdated : String) (body : PredictionRequest) (st : RateLimiterState)
    (hb : body.topic = "") (hts : ∀ t ∈ ts, t ≤ st.resetTime)
    (hcnt : getCount st.requestCounts ip + ts.length ≤ rateLimiter.maxRequests) :
    (apiPredictRun ts ip rand lastUpdated body st).1 =
      List.replicate ts.length (PredictResponse.badRequest "Prediction topic is required") ∧
    (apiPredictRun ts ip rand lastUpdated body st).2 = (checkRun ts ip st).2 := by
  induction ts generalizing st with
  | nil => simp [apiPredictRun, checkRun]
  | cons t rest ih =>
      have hwin : t ≤ st.resetTime := hts t (List.mem_cons_self t rest)
      have hlt : getCount st.requestCounts ip < rateLimiter.maxRequests := by
        simp [List.length_cons] at hcnt
        omega
      have hchk := check_step_allowed t ip st hwin hlt
      have hstep := apiPredict_step t ip rand lastUpdated body st hb hwin hlt
      have hexp :
          apiPredictRun (t :: rest) ip rand lastUpdated body st =
            ((apiPredict t ip rand lastUpdated body st).1 ::
              (apiPredictRun rest ip rand lastUpdated body
                (apiPredict t ip rand lastUpdated body st).2.1).1,
             (apiPredictRun rest ip rand lastUpdated body
                (apiPredict t ip rand lastUpdated body st).2.1).2) := rfl
      have hcexp :
          checkRun (t :: rest) ip st =
            ((rateLimiter.check t ip st).1 :: (checkRun rest ip (rateLimiter.check t ip st).2).1,
             (checkRun rest ip (rateLimiter.check t ip st).2).2) := rfl
      set st2 : RateLimiterState :=
        { requestCounts := setCount st.requestCounts ip (getCount st.requestCounts ip + 1),
          resetTime := st.resetTime } with hst2
      have hts2 : ∀ u ∈ rest, u ≤ st2.resetTime := by
        intro u hu
        simpa [hst2] using hts u (List.mem_cons_of_mem t hu)
      have hcnt2 : getCount st2.requestCounts ip + rest.length ≤ rateLimiter.maxRequests := by
        have : getCount st2.requestCounts ip = getCount st.requestCounts ip + 1 := by
          simp [hst2, getCount_setCount_self]
        rw [this]
        simp [List.length_cons] at hcnt
        omega
      obtain ⟨ih1, ih2⟩ := ih st2 hts2 hcnt2
      constructor
      · rw [hexp]
        simp [hstep, ih1, List.replicate]
      · rw [hexp, hcexp]
        simp [hstep, hchk, ih2]

/-- Claim C10 (implicit): the rate limiter runs before body validation on
`POST /api/predict`, so an in-window request with an empty topic still
consumes one slot (the caller's count is incremented) even though it is
rejected with 400 and the synthesizer never runs; consequently, after 10
(`maxRequests`) empty-topic submissions in a fresh window, the next valid
submission from the same identifier is denied with 429. -/
theorem c10_invalid_requests_consume_slots
    (now : Nat) (ip : String) (rand : Nat → Rat) (lastUpdated : String)
    (body validBody : PredictionRequest) (st : RateLimiterState)
    (t0 tv : Nat) (ts : List Nat)
    (hb : body.topic = "") (hwin : now ≤ st.resetTime)
    (hcnt : getCount st.requestCounts ip < rateLimiter.maxRequests)
    (hlen : ts.length = 10) (hts : ∀ t ∈ ts, t ≤ t0) (htv : tv ≤ t0)
    (hvb : validBody.topic ≠ "") :
    (apiPredict now ip rand lastUpdated body st =
      (PredictResponse.badRequest "Prediction topic is required",
       { requestCounts := setCount st.requestCounts ip (getCount st.requestCounts ip + 1),
         resetTime := st.resetTime }, false)) ∧
    ((apiPredictRun ts ip rand lastUpdated body ⟨[], t0⟩).1 =
      List.replicate 10 (PredictResponse.badRequest "Prediction topic is required")) ∧
    ((apiPredict tv ip rand lastUpdated validBody
        (apiPredictRun ts ip rand lastUpdated body ⟨[], t0⟩).2).1 =
      PredictResponse.rateLimited "Too many requests, please try again later."
        ((t0 - tv + 999) / 1000)) := by
  have hrun := apiPredictRun_within ts ip rand lastUpdated body ⟨[], t0⟩ hb hts
      (by simp [getCount, hlen, rateLimiter.maxRequests])
  obtain ⟨hr1, hr2⟩ := hrun
  have hbase := checkRun_within ts ip ⟨[], t0⟩ hts
      (by simp [getCount, hlen, rateLimiter.maxRequests])
  obtain ⟨_, h2, h3, _⟩ := hbase
  refine ⟨apiPredict_step now ip rand lastUpdated body st hb hwin hcnt,
          by rw [hr1, hlen], ?_⟩
  have hwin11 : tv ≤ (apiPredictRun ts ip rand lastUpdated body ⟨[], t0⟩).2.resetTime := by
    rw [hr2, h2]; exact htv
  have hcnt11 : rateLimiter.maxRequests ≤
      getCount (apiPredictRun ts ip rand lastUpdated body ⟨[], t0⟩).2.requestCounts ip := by
    rw [hr2, h3]
    simp [getCount, hlen, rateLimiter.maxRequests]
  have hd := check_step_denied tv ip
      (apiPredictRun ts ip rand lastUpdated body ⟨[], t0⟩).2 hwin11 hcnt11
  unfold apiPredict
  rw [hd, hr2, h2]

/-- Witness for C10 at concrete inputs: a fresh window ending at 60000,
ten empty-topic posts at time 0, then a valid one at time 0. -/
theorem c10_invalid_requests_consume_slots_witness :
    ((PredictionRequest.mk "" "finance" "1week" "").topic = "" ∧ (5 : Nat) ≤ 60000 ∧
      getCount ([] : List (String × Nat)) "7.7.7.7" < rateLimiter.maxRequests ∧
      (List.replicate 10 0).length = 10 ∧
      (∀ t ∈ List.replicate 10 (0 : Nat), t ≤ 60000) ∧ (0 : Nat) ≤ 60000 ∧
      (PredictionRequest.mk "Bitcoin price" "finance" "3months" "").topic ≠ "") ∧
    ((apiPredict 5 "7.7.7.7" (fun _ => 0) "ts" ⟨"", "finance", "1week", ""⟩ ⟨[], 60000⟩ =
        (PredictResponse.badRequest "Prediction topic is required",
         { requestCounts := setCount ([] : List (String × Nat)) "7.7.7.7"
             (getCount ([] : List (String × Nat)) "7.7.7.7" + 1),
           resetTime := 60000 }, false)) ∧
      ((apiPredictRun (List.replicate 10 0) "7.7.7.7" (fun _ => 0) "ts"
          ⟨"", "finance", "1week", ""⟩ ⟨[], 60000⟩).1 =
        List.replicate 10 (PredictResponse.badRequest "Prediction topic is required")) ∧
      ((apiPredict 0 "7.7.7.7" (fun _ => 0) "ts" ⟨"Bitcoin price", "finance", "3months", ""⟩
          (apiPredictRun (List.replicate 10 0) "7.7.7.7" (fun _ => 0) "ts"
            ⟨"", "finance", "1week", ""⟩ ⟨[], 60000⟩).2).1 =
        PredictResponse.rateLimited "Too many requests, please try again later."
          ((60000 - 0 + 999) / 1000))) :=
  ⟨⟨rfl, by decide, by decide, by decide, by decide, by decide, by decide⟩,
   c10_invalid_requests_consume_slots 5 "7.7.7.7" (fun _ => 0) "ts"
     ⟨"", "finance", "1week", ""⟩ ⟨"Bitcoin price", "finance", "3months", ""⟩
     ⟨[], 60000⟩ 60000 0 (List.replicate 10 0)
     rfl (by decide) (by decide) (by decide) (by decide) (by decide) (by decide)⟩

/-- JSON document values — the shapes `JSON.stringify`/`JSON.parse`
exchange for a `PredictionResult` (strings, an integer, string arrays,
one object). -/
inductive Json where
| str (s : String) : Json
| num (n : Nat) : Json
| arr (items : List Json) : Json
| obj (fields : List (String × Json)) : Json

/-- Serialize a `PredictionResult` to its JSON document, key for key in
the order the JS object literal writes them (`variables_` serializes
under the JS key `variables`). -/
def PredictionResult.toJson (p : PredictionResult) : Json :=
  Json.obj [("topic", Json.str p.topic), ("category", Json.str p.category),
    ("timeframe", Json.str p.timeframe), ("prediction", Json.str p.prediction),
    ("confidence", Json.num p.confidence), ("trend", Json.str p.trend),
    ("dataPoints", Json.arr (p.dataPoints.map Json.str)),
    ("variables", Json.arr (p.variables_.map Json.str)),
    ("historicalPatterns", Json.arr (p.historicalPatterns.map Json.str)),
    ("alternativeScenarios", Json.arr (p.alternativeScenarios.map Json.str)),
    ("lastUpdated", Json.str p.lastUpdated)]

/-- Read a JSON array of strings back into a string list. -/
def strList : List Json → Option (List String)
| [] => some []
| Json.str s :: rest => (strList rest).map (fun l => s :: l)
| _ => none

/-- Property access on a parsed JSON object: the value stored under a
key, if present. -/
def jlookup : List (String × Json) → String → Option Json
| [], _ => none
| (k, v) :: rest, key => if k = key then some v else jlookup rest key

/-- Expect a JSON string at an (optional) position. -/
def asStr : Option Json → Option String
| some (Json.str s) => some s
| _ => none

/-- Expect a JSON number at an (optional) position. -/
def asNum : Option Json → Option Nat
| some (Json.num n) => some n
| _ => none

/-- Expect a JSON array of strings at an (optional) position. -/
def asStrList : Option Json → Option (List String)
| some (Json.arr l) => strList l
| _ => none

/-- Parse the JSON document of a `PredictionResult` back into the
record, reading each field by key; any shape mismatch yields `none`. -/
def PredictionResult.fromJson : Json → Option PredictionResult
| Json.obj fields =>
    (asStr (jlookup fields "topic")).bind fun t =>
    (asStr (jlookup fields "category")).bind fun c =>
    (asStr (jlookup fields "timeframe")).bind fun tf =>
    (asStr (jlookup fields "prediction")).bind fun pr =>
    (asNum (jlookup fields "confidence")).bind fun cf =>
    (asStr (jlookup fields "trend")).bind fun tr =>
    (asStrList (jlookup fields "dataPoints")).bind fun dp =>
    (asStrList (jlookup fields "variables")).bind fun vs =>
    (asStrList (jlookup fields "historicalPatterns")).bind fun hp =>
    (asStrList (jlookup fields "alternativeScenarios")).bind fun sc =>
    (asStr (jlookup fields "lastUpdated")).bind fun lu =>
    some ⟨t, c, tf, pr, cf, tr, dp, vs, hp, sc, lu⟩
| _ => none

theorem strList_map (l : List String) : strList (l.map Json.str) = some l := by
  induction l with
  | nil => rfl
  | cons s rest ih => simp [strList, ih]

/-- Claim C9: serializing any `PredictionResult` to JSON and parsing the
JSON back yields the original record field for field. -/
theorem c9_json_round_trip (p : PredictionResult) :
    PredictionResult.fromJson (PredictionResult.toJson p) = some p := by
  obtain ⟨t, c, tf, pr, cf, tr, dp, vs, hp, sc, lu⟩ := p
  simp [PredictionResult.toJson, PredictionResult.fromJson, jlookup,
    asStr, asNum, asStrList, strList_map, Option.bind]

/-- Outcome of one status probe: the request resolved and the reply was
acceptable (`ok true`), resolved with an unacceptable reply (`ok false`),
or the fetch / parse threw (`failure`). -/
inductive ProbeResult where
| ok (good : Bool) : ProbeResult
| failure : ProbeResult
deriving DecidableEq, Repr

/-- `connected` when the probe resolved with acceptable data, `error`
otherwise (the initial `unknown` is always overwritten). -/
def probeStatus : ProbeResult → String
| ProbeResult.ok true => "connected"
| ProbeResult.ok false => "error"
| ProbeResult.failure => "error"

/-- The environment variables the status handlers consult
(`none` = unset). -/
structure Env where
  ALPHAVANTAGE_API_KEY : Option String
  NEWS_API_KEY : Option String
  VOICERSS_API_KEY : Option String
  DEEPSEEK_API_KEY : Option String
  SPEECH_RECOGNITION_ENABLED : Option String
  TEXT_TO_SPEECH_ENABLED : Option String
deriving DecidableEq, Repr

/-- JS template-literal interpolation of `process.env.X`: the string
`undefined` when the variable is unset. -/
def envInterp : Option String → String
| none => "undefined"
| some s => s

/-- `GET /api/status` of `server/index.js` (Alpha Vantage / News API /
Voice RSS snapshot): all three probes are attempted unconditionally — the
URL embeds whatever the environment holds (`undefined` when unset) and
the fetch runs regardless.  Returns the status entries and the list of
URLs fetched during the request. -/
def apiStatusMain (env : Env) (av news vr : ProbeResult) :
    List (String × String) × List String :=
  ([("Alpha Vantage", probeStatus av),
    ("News API", probeStatus news),
    ("Voice RSS TTS", probeStatus vr)],
   ["https://www.alphavantage.co/query?function=GLOBAL_QUOTE&symbol=IBM&apikey=" ++
      envInterp env.ALPHAVANTAGE_API_KEY,
    "https://newsapi.org/v2/top-headlines?country=us&pageSize=1&apiKey=" ++
      envInterp env.NEWS_API_KEY,
    "http://api.voicerss.org/?key=" ++ envInterp env.VOICERSS_API_KEY ++
      "&hl=en-us&src=Test"])

/-- `GET /api/status` of `sb1-pjmvdfam/server/index.js`: DeepSeek is
`disabled` without any probe when `DEEPSEEK_API_KEY` is unset, empty or
still the placeholder (`!apiKey || apiKey === placeholder`); otherwise
one test completion is attempted (`connected` on success, `error` on
failure).  Speech recognition and text-to-speech are purely env-gated
(`connected` iff the variable is exactly the string `true`, else
`disabled`) and never probed.  The returned `Bool` records whether the
DeepSeek probe was attempted. -/
def apiStatusSb1 (env : Env) (ds : ProbeResult) :
    List (String × String) × Bool :=
  let dsPair : String × Bool :=
    match env.DEEPSEEK_API_KEY with
    | none => ("disabled", false)
    | some k =>
        if k = "" ∨ k = "your-deepseek-api-key" then ("disabled", false)
        else
          (match ds with
           | ProbeResult.ok _ => "connected"
           | ProbeResult.failure => "error", true)
  ([("DeepSeek AI", dsPair.1),
    ("Speech Recognition",
      if env.SPEECH_RECOGNITION_ENABLED = some "true" then "connected" else "disabled"),
    ("Text-to-Speech",
      if env.TEXT_TO_SPEECH_ENABLED = some "true" then "connected" else "disabled")],
   dsPair.2)

theorem probeStatus_mem (p : ProbeResult) :
    probeStatus p = "connected" ∨ probeStatus p = "error" := by
  rcases p with good | _
  · rcases good with _ | _
    · right; rfl
    · left; rfl
  · right; rfl

/-- Claim C3 counterexample: in the Alpha Vantage snapshot's status
handler, with every environment variable unset the handler still attempts
all three network probes (`undefined` interpolated into each URL) and
reports `error` — never `disabled` — for every dependency, in particular
for Alpha Vantage whose key is unset. -/
theorem c3_counterexample :
    (⟨none, none, none, none, none, none⟩ : Env).ALPHAVANTAGE_API_KEY = none ∧
    (apiStatusMain ⟨none, none, none, none, none, none⟩
        (ProbeResult.ok false) (ProbeResult.ok false) ProbeResult.failure).1 =
      [("Alpha Vantage", "error"), ("News API", "error"), ("Voice RSS TTS", "error")] ∧
    (apiStatusMain ⟨none, none, none, none, none, none⟩
        (ProbeResult.ok false) (ProbeResult.ok false) ProbeResult.failure).2 =
      ["https://www.alphavantage.co/query?function=GLOBAL_QUOTE&symbol=IBM&apikey=undefined",
       "https://newsapi.org/v2/top-headlines?country=us&pageSize=1&apiKey=undefined",
       "http://api.voicerss.org/?key=undefined&hl=en-us&src=Test"] :=
  ⟨rfl, rfl, rfl⟩

/-- Claim C3 (amended): in the DeepSeek snapshot's `/api/status` handler,
every dependency whose environment variable is unset is reported
`disabled` and no network probe is attempted for it; in the Alpha
Vantage / News API / Voice RSS snapshot's handler, all three probes are
attempted whatever the environment and every status entry is `connected`
or `error`, never `disabled`. -/
theorem c3_status_disabled (env : Env) (ds av news vr : ProbeResult) :
    (env.DEEPSEEK_API_KEY = none →
      ((apiStatusSb1 env ds).1.map Prod.snd).head? = some "disabled" ∧
      (apiStatusSb1 env ds).2 = false) ∧
    (env.SPEECH_RECOGNITION_ENABLED = none →
      ((apiStatusSb1 env ds).1.map Prod.snd).get? 1 = some "disabled") ∧
    (env.TEXT_TO_SPEECH_ENABLED = none →
      ((apiStatusSb1 env ds).1.map Prod.snd).get? 2 = some "disabled") ∧
    ((apiStatusMain env av news vr).2.length = 3 ∧
      ∀ s ∈ (apiStatusMain env av news vr).1.map Prod.snd,
        s = "connected" ∨ s = "error") := by
  refine ⟨?_, ?_, ?_, rfl, ?_⟩
  · intro h
    simp [apiStatusSb1, h]
  · intro h
    simp [apiStatusSb1, h]
  · intro h
    simp [apiStatusSb1, h]
  · intro s hs
    simp [apiStatusMain] at hs
    rcases hs with h | h | h <;> rw [h]
    · exact probeStatus_mem av
    · exact probeStatus_mem news
    · exact probeStatus_mem vr

/-- Witness for C3 (amended) at the all-unset environment. -/
theorem c3_status_disabled_witness :
    ((⟨none, none, none, none, none, none⟩ : Env).DEEPSEEK_API_KEY = none ∧
      (⟨none, none, none, none, none, none⟩ : Env).SPEECH_RECOGNITION_ENABLED = none ∧
      (⟨none, none, none, none, none, none⟩ : Env).TEXT_TO_SPEECH_ENABLED = none) ∧
    (((apiStatusSb1 ⟨none, none, none, none, none, none⟩ ProbeResult.failure).1.map
        Prod.snd).head? = some "disabled" ∧
      (apiStatusSb1 ⟨none, none, none, none, none, none⟩ ProbeResult.failure).2 = false) ∧
    ((apiStatusSb1 ⟨none, none, none, none, none, none⟩ ProbeResult.failure).1.map
        Prod.snd).get? 1 = some "disabled" ∧
    ((apiStatusSb1 ⟨none, none, none, none, none, none⟩ ProbeResult.failure).1.map
        Prod.snd).get? 2 = some "disabled" ∧
    ((apiStatusMain ⟨none, none, none, none, none, none⟩ ProbeResult.failure
        ProbeResult.failure ProbeResult.failure).2.length = 3 ∧
      ∀ s ∈ (apiStatusMain ⟨none, none, none, none, none, none⟩ ProbeResult.failure
          ProbeResult.failure ProbeResult.failure).1.map Prod.snd,
        s = "connected" ∨ s = "error") :=
  ⟨⟨rfl, rfl, rfl⟩,
   ((c3_status_disabled ⟨none, none, none, none, none, none⟩ ProbeResult.failure
       ProbeResult.failure ProbeResult.failure ProbeResult.failure).1 rfl),
   ((c3_status_disabled ⟨none, none, none, none, none, none⟩ ProbeResult.failure
       ProbeResult.failure ProbeResult.failure ProbeResult.failure).2.1 rfl),
   ((c3_status_disabled ⟨none, none, none, none, none, none⟩ ProbeResult.failure
       ProbeResult.failure ProbeResult.failure ProbeResult.failure).2.2.1 rfl),
   (c3_status_disabled ⟨none, none, none, none, none, none⟩ ProbeResult.failure
       ProbeResult.failure ProbeResult.failure ProbeResult.failure).2.2.2⟩
